import Mathlib

/-!
Shallow embedding of `src/cli/update_plot.py`.

The script has two pieces of logic:

* `data_gen` — a Python generator that repeatedly executes
  `line = fd.read(8); if len(line) == 8: value = struct.unpack('<II', line);
  print(value); yield value` inside `while True:`; the loop has no `break`,
  `return` or `raise`, so the generator body can only keep looping.
* `animate` — the animation callback that folds a decoded record into the
  running bounds `x_min/x_max/y_min/y_max`, sets the axis limits, appends to
  the plotted series `x`/`y`, and catches `KeyboardInterrupt` with
  `sys.exit(0)`.

Modelling choices:

* Bytes are `Nat` (a byte read from the stream is `< 256`, but no operation
  here overflows, so no masking is needed and none appears in the source).
* Python floats are modelled as `ℚ`: every value reaching `animate` is a
  `u32` converted by `float(...)`, and the comparisons performed on them are
  exact; decimal literals such as `0.99` are taken at their decimal value.
* The input stream is the full (finite) byte content that will ever arrive on
  stdin; `fd.read(8)` on a `BufferedReader` returns the next
  `min 8 remaining` bytes, and returns `b''` once the stream is exhausted.
* The generator is run with explicit fuel (number of iterations of the
  `while True:` body); an iteration records its observable effects (the read,
  the `print`, the `yield`).  A `GenState.finished` state models the
  generator body returning (falling out of the loop), which for this source
  can only happen if the loop condition — the literal `True` — were false.
-/

/-- Little-endian byte-list decoding: `struct.unpack`'s reconstruction of an
unsigned integer from its least-significant byte first. -/
def leDecode : List Nat → Nat
  | [] => 0
  | b :: rest => b + 256 * leDecode rest

/-- Embedding of `struct.unpack('<II', line)` on an 8-byte `line`: two
little-endian unsigned 32-bit integers, bytes 0–3 then bytes 4–7. -/
def unpackII (line : List Nat) : Nat × Nat :=
  (leDecode (line.take 4), leDecode (line.drop 4))

/-- Observable effects of one iteration of the `data_gen` loop body. -/
inductive Effect where
  | read (nbytes : Nat)
  | print (v : Nat × Nat)
  | yielded (v : Nat × Nat)
deriving Repr, DecidableEq

/-- The loop condition of `data_gen`: the source reads `while True:`. -/
def data_gen_loop_cond : Bool := true

/-- One iteration of the `data_gen` loop body: `line = fd.read(8)` consumes
`min 8 remaining` bytes; if exactly 8 came back the frame is decoded,
printed and yielded; otherwise the iteration ends with no further effect.
Returns the effects of the iteration and the remaining stream. -/
def data_gen_iter (s : List Nat) : List Effect × List Nat :=
  let line := s.take 8
  let rest := s.drop 8
  if line.length = 8 then
    let value := unpackII line
    ([Effect.read line.length, Effect.print value, Effect.yielded value], rest)
  else
    ([Effect.read line.length], rest)

/-- Run state of the generator: still inside the loop with some remaining
stream, or the generator body has returned (fallen out of the loop). -/
inductive GenState where
  | running (rest : List Nat)
  | finished (rest : List Nat)
deriving Repr, DecidableEq

/-- Whether the generator has terminated (raised `StopIteration`). -/
def GenState.isFinished : GenState → Bool
  | .running _ => false
  | .finished _ => true

/-- Run the generator for `n` iterations of the `while` loop.  Each step
checks the loop condition (`while True:`); were it false the body would fall
out of the loop and the generator would finish. -/
def data_gen_run : Nat → GenState → List Effect × GenState
  | 0, g => ([], g)
  | _ + 1, .finished s => ([], .finished s)
  | n + 1, .running s =>
      if data_gen_loop_cond then
        ((data_gen_iter s).1 ++ (data_gen_run n (.running (data_gen_iter s).2)).1,
         (data_gen_run n (.running (data_gen_iter s).2)).2)
      else
        ([], .finished s)

/-- Effect trace of running `data_gen` on stream `s` for `n` iterations. -/
def data_gen_trace (n : Nat) (s : List Nat) : List Effect :=
  (data_gen_run n (.running s)).1

/-- Records handed to the consumer (the `yield`s) in `n` iterations. -/
def data_gen_records (n : Nat) (s : List Nat) : List (Nat × Nat) :=
  (data_gen_trace n s).filterMap fun e =>
    match e with
    | .yielded v => some v
    | _ => none

/-- The generator terminates on stream `s`: some finite number of loop
iterations reaches the finished state. -/
def data_gen_terminates (s : List Nat) : Prop :=
  ∃ n, ((data_gen_run n (.running s)).2).isFinished = true

-- Basic facts about the generator run.

theorem data_gen_run_succ_running (n : Nat) (s : List Nat) :
    data_gen_run (n + 1) (.running s) =
      ((data_gen_iter s).1 ++ (data_gen_run n (.running (data_gen_iter s).2)).1,
       (data_gen_run n (.running (data_gen_iter s).2)).2) := by
  simp [data_gen_run, data_gen_loop_cond]

/-- The `while True:` loop never exits: after any number of iterations the
generator is still running. -/
theorem data_gen_run_never_finishes :
    ∀ (n : Nat) (s : List Nat), ((data_gen_run n (.running s)).2).isFinished = false := by
  intro n
  induction n with
  | zero => intro s; rfl
  | succ n ih =>
      intro s
      rw [data_gen_run_succ_running]
      exact ih (data_gen_iter s).2

/-- A short read: when fewer than 8 bytes remain, the iteration reads them
all, emits nothing else, and leaves the stream empty. -/
theorem data_gen_iter_short (s : List Nat) (h : s.length < 8) :
    data_gen_iter s = ([Effect.read s.length], []) := by
  have htake : (s.take 8).length = s.length := by
    simp [List.length_take]; omega
  have hdrop : s.drop 8 = [] := List.drop_eq_nil_of_le (by omega)
  simp [data_gen_iter, htake, hdrop]
  omega

/-- On an exhausted stream every iteration is a zero-byte read. -/
theorem data_gen_run_nil (n : Nat) :
    data_gen_run n (.running []) = (List.replicate n (Effect.read 0), .running []) := by
  induction n with
  | zero => rfl
  | succ n ih =>
      rw [data_gen_run_succ_running]
      rw [data_gen_iter_short [] (by simp)]
      simp [ih, List.replicate_succ]

theorem data_gen_records_nil (n : Nat) : data_gen_records n [] = [] := by
  rw [data_gen_records, data_gen_trace, data_gen_run_nil]
  induction n with
  | zero => rfl
  | succ n _ => simp [List.replicate_succ]

/-- Claim C1, amended.  Once a read returns fewer than 8 bytes, no record is
emitted for the trailing bytes and none is ever emitted afterwards; but the
generator does not terminate: the `while True:` loop keeps re-reading the
exhausted stream forever (an empty stream yields zero records and the
sequence never signals exhaustion). -/
theorem data_gen_short_read_silent_no_termination (s : List Nat) (n : Nat)
    (h : s.length < 8) :
    data_gen_records n s = [] ∧
    ((data_gen_run n (.running s)).2).isFinished = false := by
  refine ⟨?_, data_gen_run_never_finishes n s⟩
  cases n with
  | zero => rfl
  | succ n =>
      rw [data_gen_records, data_gen_trace, data_gen_run_succ_running,
        data_gen_iter_short s h]
      have := data_gen_records_nil n
      rw [data_gen_records, data_gen_trace] at this
      simp [this]

/-- Witness for the amended claim C1 at a concrete short stream. -/
theorem data_gen_short_read_silent_no_termination_witness :
    ([1, 2, 3] : List Nat).length < 8 ∧
    (data_gen_records 5 [1, 2, 3] = [] ∧
      ((data_gen_run 5 (.running [1, 2, 3])).2).isFinished = false) :=
  ⟨by decide, data_gen_short_read_silent_no_termination [1, 2, 3] 5 (by decide)⟩

/-- Counterexample to claim C1 as stated: on the empty input stream the
record sequence does not terminate — no number of loop iterations ever
reaches the finished state, because the loop condition is the literal
`True` and the body contains no other exit. -/
theorem data_gen_empty_stream_does_not_terminate : ¬ data_gen_terminates [] := by
  rintro ⟨n, hn⟩
  rw [data_gen_run_never_finishes n []] at hn
  exact Bool.false_ne_true hn

/-- An effect trace in which every `yield` is immediately preceded by a
`print` of the same record. -/
def printBeforeYield (l : List Effect) : Prop :=
  ∀ (k : Nat) (v : Nat × Nat), l[k]? = some (Effect.yielded v) →
    1 ≤ k ∧ l[k - 1]? = some (Effect.print v)

theorem printBeforeYield_nil : printBeforeYield [] := by
  intro k v h
  simp at h

theorem printBeforeYield_read (m : Nat) (t : List Effect)
    (ht : printBeforeYield t) : printBeforeYield (Effect.read m :: t) := by
  intro k v h
  cases k with
  | zero => simp at h
  | succ k =>
      rw [List.getElem?_cons_succ] at h
      obtain ⟨hk, hp⟩ := ht k v h
      refine ⟨by omega, ?_⟩
      have : k + 1 - 1 = (k - 1) + 1 := by omega
      rw [this, List.getElem?_cons_succ]
      exact hp

theorem printBeforeYield_frame (w : Nat × Nat) (t : List Effect)
    (ht : printBeforeYield t) :
    printBeforeYield (Effect.read 8 :: Effect.print w :: Effect.yielded w :: t) := by
  intro k v h
  match k with
  | 0 => simp at h
  | 1 => simp at h
  | 2 =>
      simp at h
      subst h
      refine ⟨by omega, by simp⟩
  | k + 3 =>
      simp only [List.getElem?_cons_succ] at h
      obtain ⟨hk, hp⟩ := ht k v h
      refine ⟨by omega, ?_⟩
      have : k + 3 - 1 = (((k - 1) + 1) + 1) + 1 := by omega
      rw [this, List.getElem?_cons_succ, List.getElem?_cons_succ,
        List.getElem?_cons_succ]
      exact hp

theorem data_gen_trace_printBeforeYield :
    ∀ (n : Nat) (s : List Nat), printBeforeYield (data_gen_trace n s) := by
  intro n
  induction n with
  | zero => intro s; exact printBeforeYield_nil
  | succ n ih =>
      intro s
      rw [data_gen_trace, data_gen_run_succ_running]
      by_cases hlen : (s.take 8).length = 8
      · have hiter : data_gen_iter s =
            ([Effect.read 8, Effect.print (unpackII (s.take 8)),
              Effect.yielded (unpackII (s.take 8))], s.drop 8) := by
          rw [data_gen_iter]
          simp only [hlen, if_pos]
        rw [hiter]
        exact printBeforeYield_frame _ _ (ih (s.drop 8))
      · have hshort : s.length < 8 := by
          rw [List.length_take] at hlen; omega
        rw [data_gen_iter_short s hshort]
        exact printBeforeYield_read _ _ (ih [])

/-- Claim C8.  In the reader's effect trace, every record handed to the
consumer (a `yield`) is immediately preceded by its diagnostic `print` of
the same decoded pair, so the report happens before the hand-off. -/
theorem data_gen_print_precedes_yield (n : Nat) (s : List Nat) (k : Nat)
    (v : Nat × Nat) (h : (data_gen_trace n s)[k]? = some (Effect.yielded v)) :
    1 ≤ k ∧ (data_gen_trace n s)[k - 1]? = some (Effect.print v) :=
  data_gen_trace_printBeforeYield n s k v h

/-- Witness for claim C8: one full zero frame, whose yield at trace index 2
is preceded by its print at index 1. -/
theorem data_gen_print_precedes_yield_witness :
    (data_gen_trace 1 [0, 0, 0, 0, 0, 0, 0, 0])[2]? =
      some (Effect.yielded (0, 0)) ∧
    (1 ≤ 2 ∧ (data_gen_trace 1 [0, 0, 0, 0, 0, 0, 0, 0])[2 - 1]? =
      some (Effect.print (0, 0))) :=
  ⟨by decide, data_gen_print_precedes_yield 1 [0, 0, 0, 0, 0, 0, 0, 0] 2 (0, 0)
    (by decide)⟩

/-!
The `animate` callback and the process-wide mutable state it touches: the
bounds `x_min, x_max, y_min, y_max`, the series lists `x` and `y`, the axis
limits set through `ax.set_xlim` / `ax.set_ylim`, and the data handed to
`line.set_data`.  The `__main__` block initialises the bounds to the
sentinels `999999999` and `0`, the series to empty lists, and has not set
any axis limits yet (modelled as `none`).
-/

/-- The process-wide state read and written by `animate`. -/
structure PlotState where
  x_min : ℚ
  x_max : ℚ
  y_min : ℚ
  y_max : ℚ
  x : List ℚ
  y : List ℚ
  xlim : Option (ℚ × ℚ)
  ylim : Option (ℚ × ℚ)
  lineData : List ℚ × List ℚ
deriving Repr, DecidableEq

/-- The state established by the `__main__` block before the first record. -/
def initState : PlotState :=
  { x_min := 999999999, x_max := 0, y_min := 999999999, y_max := 0,
    x := [], y := [], xlim := none, ylim := none, lineData := ([], []) }

/-- Statement `if x_new > x_max: x_max = x_new`. -/
def stmt_upd_x_max (x_new : ℚ) (st : PlotState) : PlotState :=
  if x_new > st.x_max then { st with x_max := x_new } else st

/-- Statement `if x_new < x_min: x_min = x_new`. -/
def stmt_upd_x_min (x_new : ℚ) (st : PlotState) : PlotState :=
  if x_new < st.x_min then { st with x_min := x_new } else st

/-- Statement `if y_new > y_max: y_max = y_new`. -/
def stmt_upd_y_max (y_new : ℚ) (st : PlotState) : PlotState :=
  if y_new > st.y_max then { st with y_max := y_new } else st

/-- Statement `if y_new < y_min: y_min = y_new`. -/
def stmt_upd_y_min (y_new : ℚ) (st : PlotState) : PlotState :=
  if y_new < st.y_min then { st with y_min := y_new } else st

/-- Statement `ax.set_xlim(x_min * 0.99 - 1, x_max * 1.01 + 1)`. -/
def stmt_set_xlim (st : PlotState) : PlotState :=
  { st with xlim := some (st.x_min * 0.99 - 1, st.x_max * 1.01 + 1) }

/-- Statement `ax.set_ylim(y_min * 0.99 - 1, y_max * 1.01 + 1)`. -/
def stmt_set_ylim (st : PlotState) : PlotState :=
  { st with ylim := some (st.y_min * 0.99 - 1, st.y_max * 1.01 + 1) }

/-- Statement `x.append(x_new)`. -/
def stmt_append_x (x_new : ℚ) (st : PlotState) : PlotState :=
  { st with x := st.x ++ [x_new] }

/-- Statement `y.append(y_new)`. -/
def stmt_append_y (y_new : ℚ) (st : PlotState) : PlotState :=
  { st with y := st.y ++ [y_new] }

/-- Statement `line.set_data(x, y)`. -/
def stmt_set_line_data (st : PlotState) : PlotState :=
  { st with lineData := (st.x, st.y) }

/-- The state-changing statements of the `try:` body of `animate`, in source
order, after the pure bindings `x_new = float(data[0])` and
`y_new = float(data[1])`. -/
def animate_stmts (x_new y_new : ℚ) : List (PlotState → PlotState) :=
  [stmt_upd_x_max x_new, stmt_upd_x_min x_new, stmt_upd_y_max y_new,
   stmt_upd_y_min y_new, stmt_set_xlim, stmt_set_ylim, stmt_append_x x_new,
   stmt_append_y y_new, stmt_set_line_data]

/-- Execute a list of statements in order on the state. -/
def apply_stmts (fs : List (PlotState → PlotState)) (st : PlotState) : PlotState :=
  fs.foldl (fun s f => f s) st

/-- Embedding of the `animate` callback on the happy path (no interrupt):
`data` is the yielded pair of `u32` values, converted by `float(...)`. -/
def animate (st : PlotState) (data : Nat × Nat) : PlotState :=
  apply_stmts (animate_stmts (data.1 : ℚ) (data.2 : ℚ)) st

/-- Fold a whole record list through `animate` from the initial state. -/
def process_records (rs : List (Nat × Nat)) : PlotState :=
  rs.foldl animate initState

theorem ite_gt_eq_max (m v : ℚ) : (if v > m then v else m) = max m v := by
  rcases le_or_lt v m with h | h
  · rw [if_neg (not_lt.mpr h), max_eq_left h]
  · rw [if_pos h, max_eq_right h.le]

theorem ite_lt_eq_min (m v : ℚ) : (if v < m then v else m) = min m v := by
  rcases le_or_lt m v with h | h
  · rw [if_neg (not_lt.mpr h), min_eq_left h]
  · rw [if_pos h, min_eq_right h.le]

theorem stmt_upd_x_max_eq (v : ℚ) (st : PlotState) :
    stmt_upd_x_max v st = { st with x_max := max st.x_max v } := by
  rw [stmt_upd_x_max]
  rcases le_or_lt v st.x_max with h | h
  · rw [if_neg (not_lt.mpr h), max_eq_left h]
  · rw [if_pos h, max_eq_right h.le]

theorem stmt_upd_x_min_eq (v : ℚ) (st : PlotState) :
    stmt_upd_x_min v st = { st with x_min := min st.x_min v } := by
  rw [stmt_upd_x_min]
  rcases le_or_lt st.x_min v with h | h
  · rw [if_neg (not_lt.mpr h), min_eq_left h]
  · rw [if_pos h, min_eq_right h.le]

theorem stmt_upd_y_max_eq (v : ℚ) (st : PlotState) :
    stmt_upd_y_max v st = { st with y_max := max st.y_max v } := by
  rw [stmt_upd_y_max]
  rcases le_or_lt v st.y_max with h | h
  · rw [if_neg (not_lt.mpr h), max_eq_left h]
  · rw [if_pos h, max_eq_right h.le]

theorem stmt_upd_y_min_eq (v : ℚ) (st : PlotState) :
    stmt_upd_y_min v st = { st with y_min := min st.y_min v } := by
  rw [stmt_upd_y_min]
  rcases le_or_lt st.y_min v with h | h
  · rw [if_neg (not_lt.mpr h), min_eq_left h]
  · rw [if_pos h, min_eq_right h.le]

/-- Closed form of one `animate` step. -/
theorem animate_eq (st : PlotState) (a b : Nat) :
    animate st (a, b) =
      { x_min := min st.x_min (a : ℚ), x_max := max st.x_max (a : ℚ),
        y_min := min st.y_min (b : ℚ), y_max := max st.y_max (b : ℚ),
        x := st.x ++ [(a : ℚ)], y := st.y ++ [(b : ℚ)],
        xlim := some (min st.x_min (a : ℚ) * 0.99 - 1,
                      max st.x_max (a : ℚ) * 1.01 + 1),
        ylim := some (min st.y_min (b : ℚ) * 0.99 - 1,
                      max st.y_max (b : ℚ) * 1.01 + 1),
        lineData := (st.x ++ [(a : ℚ)], st.y ++ [(b : ℚ)]) } := by
  rw [animate, animate_stmts, apply_stmts]
  simp only [List.foldl_cons, List.foldl_nil]
  rw [stmt_upd_x_max_eq, stmt_upd_x_min_eq, stmt_upd_y_max_eq, stmt_upd_y_min_eq]
  rfl

-- Running-extrema fold facts, generalised over the start state.

theorem process_fold_x_max (rs : List (Nat × Nat)) :
    ∀ st : PlotState,
      (rs.foldl animate st).x_max = rs.foldl (fun m r => max m (r.1 : ℚ)) st.x_max := by
  induction rs with
  | nil => intro st; rfl
  | cons r rs ih =>
      intro st
      obtain ⟨a, b⟩ := r
      rw [List.foldl_cons, List.foldl_cons, ih, animate_eq]

theorem process_fold_x_min (rs : List (Nat × Nat)) :
    ∀ st : PlotState,
      (rs.foldl animate st).x_min = rs.foldl (fun m r => min m (r.1 : ℚ)) st.x_min := by
  induction rs with
  | nil => intro st; rfl
  | cons r rs ih =>
      intro st
      obtain ⟨a, b⟩ := r
      rw [List.foldl_cons, List.foldl_cons, ih, animate_eq]

theorem process_fold_y_max (rs : List (Nat × Nat)) :
    ∀ st : PlotState,
      (rs.foldl animate st).y_max = rs.foldl (fun m r => max m (r.2 : ℚ)) st.y_max := by
  induction rs with
  | nil => intro st; rfl
  | cons r rs ih =>
      intro st
      obtain ⟨a, b⟩ := r
      rw [List.foldl_cons, List.foldl_cons, ih, animate_eq]

theorem process_fold_y_min (rs : List (Nat × Nat)) :
    ∀ st : PlotState,
      (rs.foldl animate st).y_min = rs.foldl (fun m r => min m (r.2 : ℚ)) st.y_min := by
  induction rs with
  | nil => intro st; rfl
  | cons r rs ih =>
      intro st
      obtain ⟨a, b⟩ := r
      rw [List.foldl_cons, List.foldl_cons, ih, animate_eq]

theorem le_foldl_max (f : Nat × Nat → ℚ) (rs : List (Nat × Nat)) :
    ∀ m : ℚ, m ≤ rs.foldl (fun acc r => max acc (f r)) m := by
  induction rs with
  | nil => intro m; exact le_refl m
  | cons r rs ih =>
      intro m
      exact le_trans (le_max_left m (f r)) (ih (max m (f r)))

theorem foldl_min_le (f : Nat × Nat → ℚ) (rs : List (Nat × Nat)) :
    ∀ m : ℚ, rs.foldl (fun acc r => min acc (f r)) m ≤ m := by
  induction rs with
  | nil => intro m; exact le_refl m
  | cons r rs ih =>
      intro m
      exact le_trans (ih (min m (f r))) (min_le_left m (f r))

/-- Claim C2.  After folding any record list through `animate` from the
initial state, `x_max` is the maximum of the sentinel `0` and every `x`
seen (so it never goes below `0`), `x_min` is the minimum of the sentinel
`999999999` and every `x` seen (so it never exceeds the sentinel), and
symmetrically for `y_max` / `y_min`. -/
theorem bounds_are_running_extrema (rs : List (Nat × Nat)) :
    (process_records rs).x_max = rs.foldl (fun m r => max m (r.1 : ℚ)) 0 ∧
    (process_records rs).x_min =
      rs.foldl (fun m r => min m (r.1 : ℚ)) 999999999 ∧
    (process_records rs).y_max = rs.foldl (fun m r => max m (r.2 : ℚ)) 0 ∧
    (process_records rs).y_min =
      rs.foldl (fun m r => min m (r.2 : ℚ)) 999999999 ∧
    0 ≤ (process_records rs).x_max ∧
    (process_records rs).x_min ≤ 999999999 ∧
    0 ≤ (process_records rs).y_max ∧
    (process_records rs).y_min ≤ 999999999 := by
  have hxM := process_fold_x_max rs initState
  have hxm := process_fold_x_min rs initState
  have hyM := process_fold_y_max rs initState
  have hym := process_fold_y_min rs initState
  rw [process_records]
  rw [hxM, hxm, hyM, hym]
  refine ⟨rfl, rfl, rfl, rfl, ?_, ?_, ?_, ?_⟩
  · exact le_foldl_max (fun r => (r.1 : ℚ)) rs 0
  · exact foldl_min_le (fun r => (r.1 : ℚ)) rs 999999999
  · exact le_foldl_max (fun r => (r.2 : ℚ)) rs 0
  · exact foldl_min_le (fun r => (r.2 : ℚ)) rs 999999999

-- Series fold facts.

theorem process_fold_x (rs : List (Nat × Nat)) :
    ∀ st : PlotState,
      (rs.foldl animate st).x = st.x ++ rs.map (fun r => (r.1 : ℚ)) := by
  induction rs with
  | nil => intro st; simp
  | cons r rs ih =>
      intro st
      obtain ⟨a, b⟩ := r
      rw [List.foldl_cons, ih, animate_eq]
      simp

theorem process_fold_y (rs : List (Nat × Nat)) :
    ∀ st : PlotState,
      (rs.foldl animate st).y = st.y ++ rs.map (fun r => (r.2 : ℚ)) := by
  induction rs with
  | nil => intro st; simp
  | cons r rs ih =>
      intro st
      obtain ⟨a, b⟩ := r
      rw [List.foldl_cons, ih, animate_eq]
      simp

/-- Claim C6.  After any record list, the two series are the `x` projections
and `y` projections of the records in arrival order — hence equal length,
index `i` holds the `i`-th record, nothing is dropped or reordered — and a
single `animate` step appends exactly one element to each list. -/
theorem series_lockstep_append_only (rs : List (Nat × Nat)) (st : PlotState)
    (r : Nat × Nat) :
    (process_records rs).x = rs.map (fun p => (p.1 : ℚ)) ∧
    (process_records rs).y = rs.map (fun p => (p.2 : ℚ)) ∧
    (process_records rs).x.length = (process_records rs).y.length ∧
    (animate st r).x = st.x ++ [(r.1 : ℚ)] ∧
    (animate st r).y = st.y ++ [(r.2 : ℚ)] := by
  have hx := process_fold_x rs initState
  have hy := process_fold_y rs initState
  rw [process_records]
  rw [hx, hy]
  obtain ⟨a, b⟩ := r
  rw [animate_eq]
  simp [initState]

/-- Claim C4.  The axis limits set by an `animate` step are exactly
`x_min * 0.99 - 1`, `x_max * 1.01 + 1` (and symmetrically for y) evaluated
on the bounds after folding in that record. -/
theorem display_limits_from_folded_bounds (st : PlotState) (r : Nat × Nat) :
    (animate st r).xlim =
      some ((animate st r).x_min * 0.99 - 1, (animate st r).x_max * 1.01 + 1) ∧
    (animate st r).ylim =
      some ((animate st r).y_min * 0.99 - 1, (animate st r).y_max * 1.01 + 1) := by
  obtain ⟨a, b⟩ := r
  rw [animate_eq]
  exact ⟨rfl, rfl⟩

/-- Claim C3.  Decoding an 8-byte frame `(a,b,c,d,e,f,g,h)` yields
`x = a + 256b + 65536c + 16777216d` from bytes 0–3 and
`y = e + 256f + 65536g + 16777216h` from bytes 4–7. -/
theorem unpackII_little_endian (a b c d e f g h : Nat) :
    unpackII [a, b, c, d, e, f, g, h] =
      (a + 256 * b + 65536 * c + 16777216 * d,
       e + 256 * f + 65536 * g + 16777216 * h) := by
  simp only [unpackII, List.take, List.drop, leDecode, Prod.mk.injEq]
  constructor <;> ring

/-- Modelled from the spec: the natural little-endian encoding of an
unsigned 32-bit value as 4 bytes, least-significant first (the inverse
direction of `struct.unpack('<I', ...)`; the repository contains no
encoder, only the decoder). -/
def leEncodeU32 (v : Nat) : List Nat :=
  [v % 256, v / 256 % 256, v / 65536 % 256, v / 16777216 % 256]

/-- Modelled from the spec: the 8-byte frame encoding a record `(x, y)` as
two little-endian unsigned 32-bit fields. -/
def encodeRecord (x y : Nat) : List Nat := leEncodeU32 x ++ leEncodeU32 y

/-- Claim C7.  For `x, y < 2^32`, decoding the little-endian encoding of
`(x, y)` gives back exactly `(x, y)`. -/
theorem unpackII_encodeRecord (x y : Nat) (hx : x < 4294967296)
    (hy : y < 4294967296) : unpackII (encodeRecord x y) = (x, y) := by
  simp only [encodeRecord, leEncodeU32, List.cons_append, List.nil_append,
    unpackII, List.take, List.drop, leDecode, Prod.mk.injEq]
  constructor <;> omega

/-- Witness for claim C7 at a concrete 32-bit pair. -/
theorem unpackII_encodeRecord_witness :
    unpackII (encodeRecord 305419896 3735928559) = (305419896, 3735928559) :=
  unpackII_encodeRecord 305419896 3735928559 (by decide) (by decide)

/-- Claim C9.  The display-limit derivation (the pair of `set_xlim` /
`set_ylim` statements) is a pure function of the current bounds: it does not
modify the bounds or the series, and running it a second time on its own
output sets the very same limits. -/
theorem display_limit_derivation_pure (st : PlotState) :
    (stmt_set_ylim (stmt_set_xlim st)).x_min = st.x_min ∧
    (stmt_set_ylim (stmt_set_xlim st)).x_max = st.x_max ∧
    (stmt_set_ylim (stmt_set_xlim st)).y_min = st.y_min ∧
    (stmt_set_ylim (stmt_set_xlim st)).y_max = st.y_max ∧
    (stmt_set_ylim (stmt_set_xlim st)).x = st.x ∧
    (stmt_set_ylim (stmt_set_xlim st)).y = st.y ∧
    stmt_set_ylim (stmt_set_xlim (stmt_set_ylim (stmt_set_xlim st))) =
      stmt_set_ylim (stmt_set_xlim st) := by
  refine ⟨rfl, rfl, rfl, rfl, rfl, rfl, rfl⟩

/-- Claim C10.  The minimum sentinel `999999999` is strictly below the
largest decodable `u32` value `4294967295`; the all-`0xff` frame decodes to
`(4294967295, 4294967295)`, and after processing it from the initial state
`x_min` (and `y_min`) is still the sentinel, not the observed value: the
sentinel is not an upper bound of the input domain. -/
theorem min_sentinel_not_input_upper_bound :
    (999999999 : ℚ) < 4294967295 ∧
    unpackII (List.replicate 8 255) = (4294967295, 4294967295) ∧
    (animate initState (unpackII (List.replicate 8 255))).x_min = 999999999 ∧
    (animate initState (unpackII (List.replicate 8 255))).x_min ≠
      ((4294967295 : Nat) : ℚ) ∧
    (animate initState (unpackII (List.replicate 8 255))).y_min = 999999999 := by
  have hdec : unpackII (List.replicate 8 255) = (4294967295, 4294967295) := by
    decide
  rw [hdec, animate_eq]
  have hmin : min (initState.x_min) ((4294967295 : Nat) : ℚ) = 999999999 := by
    rw [initState]
    norm_num
  have hminy : min (initState.y_min) ((4294967295 : Nat) : ℚ) = 999999999 := by
    rw [initState]
    norm_num
  refine ⟨by norm_num, rfl, hmin, ?_, hminy⟩
  rw [hmin]
  norm_num

/-!
Failure semantics of `animate`: the whole body sits in a `try:` whose only
handler is `except KeyboardInterrupt: sys.exit(0)`.  A `KeyboardInterrupt`
delivered while the body runs is modelled by the index of the last
state-changing statement that completed before the signal arrived; the
handler turns it into `sys.exit(0)`, i.e. process termination with exit
status 0, with the state exactly as the completed statements left it.
-/

/-- Result of the `try:` body: ran to completion, or a `KeyboardInterrupt`
escaped it with the state mutated so far. -/
inductive BodyResult where
  | ok (st : PlotState)
  | interrupted (st : PlotState)
deriving Repr, DecidableEq

/-- Outcome of one `animate` call: the callback returned, or the process
terminated via `sys.exit` with the given status code. -/
inductive AnimateOutcome where
  | returned (st : PlotState)
  | exited (code : Nat) (st : PlotState)
deriving Repr, DecidableEq

/-- The `try:` body of `animate`, with an optional `KeyboardInterrupt`
delivered after `k` of its state-changing statements have run. -/
def animate_body (interruptAt : Option Nat) (x_new y_new : ℚ)
    (st : PlotState) : BodyResult :=
  match interruptAt with
  | none => .ok (apply_stmts (animate_stmts x_new y_new) st)
  | some k =>
      if k ≤ (animate_stmts x_new y_new).length then
        .interrupted (apply_stmts ((animate_stmts x_new y_new).take k) st)
      else
        .ok (apply_stmts (animate_stmts x_new y_new) st)

/-- The whole `animate` call: body plus the
`except KeyboardInterrupt: sys.exit(0)` handler. -/
def animate_try (interruptAt : Option Nat) (x_new y_new : ℚ)
    (st : PlotState) : AnimateOutcome :=
  match animate_body interruptAt x_new y_new st with
  | .ok st2 => .returned st2
  | .interrupted st2 => .exited 0 st2

/-- Claim C5.  A `KeyboardInterrupt` delivered at any point of the update
body makes the call exit with status 0, the state being exactly what the
already-executed statements accumulated (no rollback: each series is the old
series plus at most the new point); and this is the only handled condition —
without an interrupt the call returns normally. -/
theorem interrupt_exits_zero_no_rollback (k : Nat) (x_new y_new : ℚ)
    (st : PlotState) (hk : k ≤ (animate_stmts x_new y_new).length) :
    animate_try (some k) x_new y_new st =
      .exited 0 (apply_stmts ((animate_stmts x_new y_new).take k) st) ∧
    (∃ t1 t2,
      (apply_stmts ((animate_stmts x_new y_new).take k) st).x = st.x ++ t1 ∧
      (apply_stmts ((animate_stmts x_new y_new).take k) st).y = st.y ++ t2) ∧
    animate_try none x_new y_new st =
      .returned (apply_stmts (animate_stmts x_new y_new) st) := by
  refine ⟨?_, ?_, rfl⟩
  · rw [animate_try, animate_body, if_pos hk]
  · have hlen : (animate_stmts x_new y_new).length = 9 := rfl
    rw [hlen] at hk
    interval_cases k
    all_goals
      simp only [animate_stmts, apply_stmts, List.take, List.foldl_cons,
        List.foldl_nil, stmt_upd_x_max_eq, stmt_upd_x_min_eq,
        stmt_upd_y_max_eq, stmt_upd_y_min_eq]
    all_goals
      first
      | exact ⟨[], [], (List.append_nil _).symm, (List.append_nil _).symm⟩
      | exact ⟨[x_new], [], rfl, (List.append_nil _).symm⟩
      | exact ⟨[x_new], [y_new], rfl, rfl⟩

/-- Witness for claim C5: interrupt delivered after 4 statements of the
update for record `(1, 2)` from the initial state. -/
theorem interrupt_exits_zero_no_rollback_witness :
    (4 ≤ (animate_stmts 1 2).length) ∧
    (animate_try (some 4) 1 2 initState =
        .exited 0 (apply_stmts ((animate_stmts 1 2).take 4) initState) ∧
      (∃ t1 t2,
        (apply_stmts ((animate_stmts 1 2).take 4) initState).x =
          initState.x ++ t1 ∧
        (apply_stmts ((animate_stmts 1 2).take 4) initState).y =
          initState.y ++ t2) ∧
      animate_try none 1 2 initState =
        .returned (apply_stmts (animate_stmts 1 2) initState)) :=
  ⟨by decide, interrupt_exits_zero_no_rollback 4 1 2 initState (by decide)⟩
